import Mathlib

/-!
Shallow embedding of the MultiAgent_Healthcare repository
(agents/agno_workspace/agents/{cgm_agent, mood_tracker_agent, interrupt_agent}.py).

Modelling conventions:
* Python ints are `ℤ` (or `ℕ` for counts), float arithmetic is exact `ℚ`
  arithmetic, `round(x, 1)` is `round1` (round half to even at one decimal,
  the rounding mode documented for Python).
* The SQLite/Postgres store is an explicit list of rows in insertion order;
  a `SELECT ... ORDER BY timestamp DESC` over the rows of a user is the reversed
  filtered list.  The 7-day window clause is abstracted away: every stored
  row is taken to be inside the trailing window, and the stats functions are
  stated over the window contents they receive, exactly as in the source.
* Python dicts with optional keys become structures with `Option` fields;
  a missing key is `none`.
* Randomness (`generate_realistic_reading`) and external calls (sub-agent
  delegation, the generative-text client, DB availability inside
  `calculate_health_score`) are inputs: an explicit reading argument and an
  `InterruptOracle` of call outcomes.  `Except.error e` models the
  `except Exception as e` branch of the corresponding `try` block.
-/

/-! ### Numeric helpers -/

/-- Floor of a rational as an integer. -/
def ratFloor (q : ℚ) : ℤ := ⌊q⌋

/-- Python `round` at integer precision: round half to even. -/
def roundHalfEven (q : ℚ) : ℤ :=
  let f := ratFloor q
  let r := q - (f : ℚ)
  if r < 1/2 then f
  else if 1/2 < r then f + 1
  else if f % 2 = 0 then f else f + 1

/-- Python `round(x, 1)`. -/
def round1 (q : ℚ) : ℚ := (roundHalfEven (10 * q) : ℚ) / 10

/-- Mean of a list of rationals (`sum(l) / len(l)`); 0 on the empty list
(the source never divides by zero: every division is guarded). -/
def meanQ (l : List ℚ) : ℚ := l.sum / l.length

/-! ### String helpers (Python `str` operations over `List Char`) -/

/-- Does `l` start with `p`?  (Python `str.startswith`.) -/
def listStarts : List Char → List Char → Bool
  | _, [] => true
  | [], _ :: _ => false
  | a :: as, b :: bs => a = b && listStarts as bs

/-- Does the pattern `p` occur as a contiguous run inside `l`?
(Python `p in l`.) -/
def listHasRun (l p : List Char) : Bool :=
  match l with
  | [] => p.isEmpty
  | _ :: t => listStarts l p || listHasRun t p

/-- Python `needle in hay` on strings. -/
def strHas (hay needle : String) : Bool := listHasRun hay.data needle.data

/-- Python `hay.startswith(needle)`. -/
def strStarts (hay needle : String) : Bool := listStarts hay.data needle.data

/-- Python `str.lower()` (character-wise, as for the ASCII text involved). -/
def toLowerStr (s : String) : String := String.mk (s.data.map Char.toLower)

/-- Split a character list at the characters satisfying `p`; empty segments
are kept (filtered by callers as Python `split()` does). -/
def splitOnPred (p : Char → Bool) (l : List Char) : List (List Char) :=
  l.foldr
    (fun c acc =>
      if p c then [] :: acc
      else
        match acc with
        | [] => [[c]]
        | h :: t => (c :: h) :: t)
    [[]]

/-- Python `s.split()` — whitespace-separated words, no empties. -/
def splitWords (s : String) : List (List Char) :=
  (splitOnPred Char.isWhitespace s.data).filter (fun w => !w.isEmpty)

/-- Word characters of the regex `\w` class. -/
def isWordChar (c : Char) : Bool := c.isAlphanum || c = '_'

/-- Maximal runs of word characters of a string (the `\b`-delimited words). -/
def wordRuns (s : String) : List (List Char) :=
  (splitOnPred (fun c => !isWordChar c) s.data).filter (fun w => !w.isEmpty)

/-- Digits-to-number (Python `int` on a digit string). -/
def natOfDigits (l : List Char) : ℕ :=
  l.foldl (fun n c => 10 * n + (c.toNat - 48)) 0

/-- Characters after the first occurrence of run `p` in `l`, if `p` occurs. -/
def afterRun : List Char → List Char → Option (List Char)
  | [], p => if p.isEmpty then some [] else none
  | a :: t, p => if listStarts (a :: t) p then some ((a :: t).drop p.length)
                 else afterRun t p

/-- Characters of `l` before the first occurrence of `p` (all of `l` if `p`
does not occur). -/
def beforeRun : List Char → List Char → List Char
  | [], _ => []
  | a :: t, p => if listStarts (a :: t) p then [] else a :: beforeRun t p

/-- Python `str.strip()`. -/
def trimChars (l : List Char) : List Char :=
  ((l.dropWhile Char.isWhitespace).reverse.dropWhile Char.isWhitespace).reverse

/-- Render an optional string the way a Python f-string renders it
(`None` for a missing value). -/
def optStr : Option String → String
  | some s => s
  | none => "None"

/-! ### CGM agent (`cgm_agent.py`, class `CGMAgent`)

`critical_low = 70`, `critical_high = 300` from `__init__`. -/

/-- Embeds `CGMAgent.get_glucose_status` (cgm_agent.py lines 105-118). -/
def get_glucose_status (reading : ℤ) : String :=
  if reading < 70 then "critically_low"
  else if reading < 80 then "low"
  else if reading ≤ 140 then "normal"
  else if reading ≤ 180 then "elevated"
  else if reading ≤ 250 then "high"
  else "critically_high"

/-- The six status labels, in band order. -/
def glucoseStatusLabels : List String :=
  ["critically_low", "low", "normal", "elevated", "high", "critically_high"]

/-- Embeds `CGMAgent.get_recommendations` (cgm_agent.py lines 268-303). -/
def get_recommendations (status : String) : List String :=
  if status = "critically_low" then
    ["Consume 15g of fast-acting carbs (glucose tablets, juice)",
     "Recheck in 15 minutes",
     "Contact healthcare provider immediately"]
  else if status = "low" then
    ["Have a small snack with 15-20g carbs",
     "Avoid intense exercise for now",
     "Monitor closely"]
  else if status = "normal" then
    ["Keep up the good work!",
     "Maintain your current meal plan",
     "Continue regular monitoring"]
  else if status = "elevated" then
    ["Consider a low-carb meal for next eating",
     "Stay hydrated",
     "Light physical activity may help"]
  else if status = "high" || status = "critically_high" then
    ["Avoid high-carb foods",
     "Increase water intake",
     "Consider contacting healthcare provider"]
  else []

/-- Embeds `CGMAgent.get_reading_response` (cgm_agent.py lines 255-266). -/
def get_reading_response (reading : ℤ) (status : String) : String :=
  if status = "critically_low" then
    "ALERT: Your glucose is critically low at " ++ toString reading ++
      " mg/dL. Please consume fast-acting carbs immediately and contact your healthcare provider!"
  else if status = "low" then
    "Your glucose is low at " ++ toString reading ++
      " mg/dL. Consider having a small snack with carbs."
  else if status = "normal" then
    "Great! Your glucose is in normal range at " ++ toString reading ++ " mg/dL."
  else if status = "elevated" then
    "Your glucose is slightly elevated at " ++ toString reading ++
      " mg/dL. This is manageable with proper meal planning."
  else if status = "high" then
    "Your glucose is high at " ++ toString reading ++
      " mg/dL. Consider adjusting your next meal and increasing water intake."
  else if status = "critically_high" then
    "ALERT: Your glucose is critically high at " ++ toString reading ++
      " mg/dL. Please contact your healthcare provider immediately!"
  else "Glucose reading logged: " ++ toString reading ++ " mg/dL"

/-! ### CGM store and `CGMAgent.process` -/

/-- A row of the `cgm_readings` table (user_id, glucose_reading, alert_flag);
the store list is in insertion (timestamp) order. -/
structure CGMRow where
  user : ℤ
  reading : ℤ
  alert : Bool
deriving DecidableEq, Repr

/-- Embeds `CGMAgent.log_cgm_reading` (cgm_agent.py lines 60-76): computes
`alert_flag = reading < critical_low or reading > critical_high` and inserts
the row.  The DB-unavailable branch is not modelled (the process claims are
about what is persisted on the success path). -/
def log_cgm_reading (store : List CGMRow) (user_id glucose_reading : ℤ) :
    List CGMRow :=
  store ++ [⟨user_id, glucose_reading, glucose_reading < 70 || 300 < glucose_reading⟩]

/-- An entry of `get_cgm_history`: glucose_reading, alert_flag, status. -/
structure CGMHistEntry where
  glucose_reading : ℤ
  alert_flag : Bool
  status : String
deriving DecidableEq, Repr

/-- Embeds `CGMAgent.get_cgm_history` (cgm_agent.py lines 78-103): the rows of the user,
most recent first, each annotated with `get_glucose_status`. -/
def get_cgm_history (store : List CGMRow) (user_id : ℤ) : List CGMHistEntry :=
  ((store.filter (fun row => row.user = user_id)).reverse).map
    (fun row => ⟨row.reading, row.alert, get_glucose_status row.reading⟩)

/-- The dict returned by `CGMAgent.calculate_cgm_stats`. -/
structure CGMStats where
  average_reading : ℚ
  time_in_range : ℚ
  total_readings : ℕ
  trend : String
  alerts : ℕ
deriving DecidableEq, Repr

/-- Embeds `CGMAgent.calculate_cgm_stats` (cgm_agent.py lines 120-162).  The input
list is the history, most recent entry first. -/
def calculate_cgm_stats (cgm_history : List CGMHistEntry) : CGMStats :=
  if cgm_history.isEmpty then
    ⟨0, 0, 0, "stable", 0⟩
  else
    let readings := cgm_history.map (fun e => e.glucose_reading)
    let average_reading : ℚ := (readings.sum : ℚ) / readings.length
    let in_range_count := (readings.filter (fun r => 70 ≤ r ∧ r ≤ 180)).length
    let time_in_range : ℚ := ((in_range_count : ℚ) / readings.length) * 100
    let alerts := (cgm_history.filter (fun e => e.alert_flag)).length
    let scoresQ := cgm_history.map (fun e => (e.glucose_reading : ℚ))
    let trend :=
      if 4 ≤ readings.length then
        let mid_point := readings.length / 2
        let recent_avg := meanQ (scoresQ.take mid_point)
        let older_avg := meanQ (scoresQ.drop mid_point)
        if recent_avg > older_avg + 15 then "rising"
        else if recent_avg < older_avg - 15 then "falling"
        else "stable"
      else "stable"
    ⟨round1 average_reading, round1 time_in_range, readings.length, trend, alerts⟩

/-- Embeds `CGMAgent.generate_cgm_summary` (cgm_agent.py lines 305-329). -/
def generate_cgm_summary (stats : CGMStats) : String :=
  if stats.total_readings = 0 then
    "No glucose readings recorded yet. Start monitoring to track your patterns!"
  else
    let base :=
      "Your glucose summary over the last 7 days:\n\n" ++
      "- Average reading: " ++ toString stats.average_reading ++ " mg/dL\n" ++
      "- Time in range (70-180): " ++ toString stats.time_in_range ++ "%\n" ++
      "- Trend: " ++ stats.trend ++ "\n" ++
      "- Total readings: " ++ toString stats.total_readings ++ "\n" ++
      "- Alerts: " ++ toString stats.alerts ++ "\n\n"
    if stats.time_in_range ≥ 80 then
      base ++ "Excellent glucose control! Keep it up!"
    else if stats.time_in_range ≥ 70 then
      base ++ "Good glucose management. Small improvements can make a big difference."
    else
      base ++ "Your glucose control could benefit from some adjustments. Consider meal planning strategies."

/-- The response dict of `CGMAgent.process`; keys that a branch does not set
are `none`. -/
structure CGMResult where
  success : Bool
  message : String
  error : Option String
  glucose_reading : Option ℤ
  status : Option String
  alert_flag : Option Bool
  recommendations : Option (List String)
  cgm_stats : Option CGMStats
  cgm_history : Option (List CGMHistEntry)
deriving DecidableEq, Repr

/-- Embeds `CGMAgent.process` (cgm_agent.py lines 164-253), returning the response
together with the store after the call.  `generated` stands for the random
reading `generate_realistic_reading` would produce; `user_id = some 0` is
falsy in Python (`if not user_id`), hence rejected like `none`. -/
def cgmProcess (user_id : Option ℤ) (glucose_reading : Option ℤ)
    (action : String) (generated : ℤ) (store : List CGMRow) :
    CGMResult × List CGMRow :=
  if user_id = none ∨ user_id = some 0 then
    (⟨false, "User ID is required", some "missing_user_id",
      none, none, none, none, none, none⟩, store)
  else
    let uid := (user_id.getD 0)
    if action = "generate" then
      let store' := log_cgm_reading store uid generated
      let status := get_glucose_status generated
      let alert := generated < 70 || 300 < generated
      (⟨true, get_reading_response generated status, none,
        some generated, some status, some alert,
        some (get_recommendations status), none, none⟩, store')
    else if action = "log" then
      match glucose_reading with
      | none =>
          (⟨false, "Please provide a glucose reading (80-300 mg/dL)",
            some "missing_reading", none, none, none, none, none, none⟩, store)
      | some r =>
          if ¬ (60 ≤ r ∧ r ≤ 350) then
            (⟨false, "Glucose reading must be between 60 and 350 mg/dL",
              some "invalid_range", none, none, none, none, none, none⟩, store)
          else
            let store' := log_cgm_reading store uid r
            let status := get_glucose_status r
            let alert := r < 70 || 300 < r
            (⟨true, get_reading_response r status, none,
              some r, some status, some alert,
              some (get_recommendations status), none, none⟩, store')
    else if action = "get_stats" then
      let hist := get_cgm_history store uid
      let stats := calculate_cgm_stats hist
      (⟨true, generate_cgm_summary stats, none,
        none, none, none, none, some stats, some hist⟩, store)
    else
      (⟨false, "Invalid action. Use \x22log\x22, \x22generate\x22, or \x22get_stats\x22.",
        some "invalid_action", none, none, none, none, none, none⟩, store)

/-! ### Mood tracker agent (`mood_tracker_agent.py`, class `MoodTrackerAgent`)

Emoji decorations inside message strings are omitted throughout the
embedding; the surrounding text is kept verbatim. -/

/-- Embeds `self.mood_values` from `MoodTrackerAgent.__init__`. -/
def mood_values : List (String × ℕ) :=
  [("happy", 3), ("tired", 2), ("anxious", 2), ("calm", 1), ("sad", 1), ("angry", 1)]

/-- Embeds `self.mood_values.get(mood, 3)` — the score of a mood label, default 3. -/
def moodScore (mood : String) : ℕ :=
  ((mood_values.find? (fun p => p.1 = mood)).map (fun p => p.2)).getD 3

/-- A row of the `mood_logs` table (user_id, mood); insertion order. -/
structure MoodRow where
  user : ℤ
  mood : String
deriving DecidableEq, Repr

/-- Embeds `MoodTrackerAgent.log_mood` (mood_tracker_agent.py lines 23-37): inserts
the lowercased mood. -/
def log_mood (store : List MoodRow) (user_id : ℤ) (mood : String) : List MoodRow :=
  store ++ [⟨user_id, toLowerStr mood⟩]

/-- Embeds `MoodTrackerAgent.get_mood_history` (mood_tracker_agent.py lines 39-63):
the mood labels of the user, most recent first (each history entry also carries
`score = mood_values.get(mood, 3)`, recomputed here by `moodScore`). -/
def get_mood_history (store : List MoodRow) (user_id : ℤ) : List String :=
  ((store.filter (fun row => row.user = user_id)).reverse).map (fun row => row.mood)

/-- The dict returned by `MoodTrackerAgent.calculate_mood_stats`. -/
structure MoodStats where
  average_score : ℚ
  trend : String
  dominant_mood : String
  total_entries : ℕ
deriving DecidableEq, Repr

/-- Embeds the Python idiom `max(mood_counts.items(), key=lambda x: x[1])[0]` over insertion-ordered
counts: the first-encountered mood with the maximal count. -/
def dominantMood (mood_history : List String) : String :=
  let uniq := mood_history.foldl
    (fun acc m => if acc.contains m then acc else acc ++ [m]) []
  let counts := uniq.map
    (fun m => (m, (mood_history.filter (fun x => x = m)).length))
  match counts with
  | [] => "neutral"
  | c :: cs => (cs.foldl (fun best p => if p.2 > best.2 then p else best) c).1

/-- Embeds `MoodTrackerAgent.calculate_mood_stats` (mood_tracker_agent.py lines
65-106).  The input is the mood history, most recent entry first. -/
def calculate_mood_stats (mood_history : List String) : MoodStats :=
  if mood_history.isEmpty then
    ⟨3, "stable", "neutral", 0⟩
  else
    let scores := mood_history.map (fun m => (moodScore m : ℚ))
    let average_score := scores.sum / scores.length
    let trend :=
      if 4 ≤ scores.length then
        let mid_point := scores.length / 2
        let recent_avg := meanQ (scores.take mid_point)
        let older_avg := meanQ (scores.drop mid_point)
        if recent_avg > older_avg + 1/2 then "improving"
        else if recent_avg < older_avg - 1/2 then "declining"
        else "stable"
      else "stable"
    ⟨round1 average_score, trend, dominantMood mood_history, mood_history.length⟩

/-- Embeds `MoodTrackerAgent.get_mood_response` (mood_tracker_agent.py lines
176-197). -/
def get_mood_response (mood : String) (stats : MoodStats) : String :=
  let base :=
    if toLowerStr mood = "happy" then "That\x27s wonderful!"
    else if toLowerStr mood = "tired" then
      "Rest is important. Consider taking some time to recharge."
    else if toLowerStr mood = "anxious" then
      "I understand anxiety can be challenging. Remember to breathe deeply."
    else if toLowerStr mood = "stressed" then
      "Stress can be tough. Would you like some meal suggestions that might help?"
    else if toLowerStr mood = "sad" then
      "I\x27m sorry you\x27re feeling down. You\x27re not alone in this."
    else if toLowerStr mood = "angry" then
      "It\x27s okay to feel angry sometimes. Let\x27s focus on self-care."
    else "Thanks for sharing how you\x27re feeling. "
  if stats.trend = "improving" then
    base ++ " Your mood trend has been improving lately - that\x27s fantastic!"
  else if stats.trend = "declining" ∧ stats.average_score < 3 then
    base ++ " I\x27ve noticed your mood has been lower recently. Would you like to talk about meal planning to boost your energy?"
  else base

/-- Embeds `MoodTrackerAgent.generate_mood_summary` (mood_tracker_agent.py lines
199-222). -/
def generate_mood_summary (stats : MoodStats) : String :=
  if stats.total_entries = 0 then
    "You haven\x27t logged any moods yet. Start tracking to see your patterns!"
  else
    let base :=
      "Your mood summary over the last 7 days:\n\n" ++
      "- Average mood score: " ++ toString stats.average_score ++ "/5\n" ++
      "- Trend: " ++ stats.trend ++ "\n" ++
      "- Most common mood: " ++ stats.dominant_mood ++ "\n" ++
      "- Total entries: " ++ toString stats.total_entries ++ "\n\n"
    if stats.average_score ≥ 4 then
      base ++ "You\x27re doing great! Keep up the positive energy!"
    else if stats.average_score ≥ 3 then
      base ++ "Your mood is fairly balanced. Consider what activities make you feel best."
    else
      base ++ "Your mood has been lower lately. Remember that it\x27s okay to have ups and downs. Consider focusing on self-care activities."

/-- The response dict of `MoodTrackerAgent.process`. -/
structure MoodResult where
  success : Bool
  message : String
  error : Option String
  available_moods : Option (List String)
  logged_mood : Option String
  mood_stats : Option MoodStats
  mood_history : Option (List String)
deriving DecidableEq, Repr

/-- Embeds `MoodTrackerAgent.process` (mood_tracker_agent.py lines 108-174),
returning the response together with the store after the call.
`user_id = some 0` and `mood = some ""` are falsy in Python. -/
def moodProcess (user_id : Option ℤ) (mood : Option String) (action : String)
    (store : List MoodRow) : MoodResult × List MoodRow :=
  if user_id = none ∨ user_id = some 0 then
    (⟨false, "User ID is required", some "missing_user_id",
      none, none, none, none⟩, store)
  else
    let uid := user_id.getD 0
    if action = "log" then
      match mood with
      | none =>
          (⟨false, "Please select your current mood", none,
            some (mood_values.map (fun p => p.1)), none, none, none⟩, store)
      | some m =>
          if m = "" then
            (⟨false, "Please select your current mood", none,
              some (mood_values.map (fun p => p.1)), none, none, none⟩, store)
          else if ¬ (mood_values.map (fun p => p.1)).contains (toLowerStr m) then
            (⟨false, "Invalid mood \x22" ++ m ++ "\x22. Please select from available options.",
              none, some (mood_values.map (fun p => p.1)), none, none, none⟩, store)
          else
            let store' := log_mood store uid m
            let hist := get_mood_history store' uid
            let stats := calculate_mood_stats hist
            (⟨true,
              "Great! I\x27ve logged that you\x27re feeling " ++ m ++ ". " ++
                get_mood_response m stats,
              none, none, some m, some stats,
              some (hist.drop (hist.length - 7))⟩, store')
    else if action = "get_stats" then
      let hist := get_mood_history store uid
      let stats := calculate_mood_stats hist
      (⟨true, generate_mood_summary stats, none, none, none,
        some stats, some hist⟩, store)
    else
      (⟨false, "Invalid action. Use \x22log\x22 or \x22get_stats\x22.",
        some "invalid_action", none, none, none, none⟩, store)

/-! ### Intent classifier (`interrupt_agent.py`, `classify_question`) -/

/-- Embeds `question_words` (interrupt_agent.py line 51). -/
def question_words : List String :=
  ["why", "how", "what", "when", "where", "which", "who", "whom", "whose"]

/-- Embeds `glucose_keywords` (line 55). -/
def glucose_keywords : List String := ["glucose", "blood sugar", "sugar level", "cgm"]

/-- Embeds `mood_keywords` (line 63). -/
def mood_keywords : List String :=
  ["happy", "sad", "angry", "calm", "tired", "anxious", "feeling"]

/-- Embeds `meal_keywords` (line 70). -/
def meal_keywords : List String :=
  ["meal", "plan", "breakfast", "lunch", "dinner", "generate"]

/-- Embeds `nutrition_keywords` (line 77). -/
def nutrition_keywords : List String :=
  ["nutrition", "nutrients", "calories", "protein", "carbs", "fat", "analyze"]

/-- Embeds `question_phrases` (line 78). -/
def question_phrases : List String := ["what are", "how much", "tell me"]

/-- Embeds `nutrition_food_phrases` (lines 83-96). -/
def nutrition_food_phrases : List String :=
  ["nutrition values in", "nutrients in", "calories in", "protein in",
   "carbs in", "fat in", "nutrition of", "nutrients of", "calories of",
   "protein of", "carbs of", "fat of"]

/-- Embeds `health_score_keywords` (line 107). -/
def health_score_keywords : List String :=
  ["health score", "how healthy", "health rating", "wellness score"]

/-- The `is_question` test of `classify_question` (line 52), on the
lowercased query. -/
def isQuestionQuery (q : String) : Bool :=
  question_words.any (fun w => strStarts q w) || strHas q "?"

/-- The glucose-logging rule of `classify_question` (lines 55-59), on the
lowercased query: glucose keyword + a digit + not a question. -/
def glucoseRule (q : String) : Bool :=
  glucose_keywords.any (fun k => strHas q k) && q.data.any Char.isDigit &&
    !isQuestionQuery q

/-- The mood-logging rule (lines 63-66). -/
def moodRule (q : String) : Bool :=
  mood_keywords.any (fun k => strHas q k) && !isQuestionQuery q

/-- The meal-planning rule (lines 70-73). -/
def mealRule (q : String) : Bool :=
  meal_keywords.any (fun k => strHas q k) && !isQuestionQuery q

/-- The nutrition-analysis rule (lines 77-104): nutrition keyword with a
question phrase, or a nutrition+food phrase, or `what are` with a
nutrition keyword. -/
def nutritionRule (q : String) : Bool :=
  (nutrition_keywords.any (fun k => strHas q k) &&
     question_phrases.any (fun k => strHas q k)) ||
  nutrition_food_phrases.any (fun k => strHas q k) ||
  (strStarts q "what are" && nutrition_keywords.any (fun k => strHas q k))

/-- The health-score rule (lines 107-108). -/
def healthScoreRule (q : String) : Bool :=
  health_score_keywords.any (fun k => strHas q k)

/-- Embeds `classify_question` (interrupt_agent.py lines 47-115): lowercases the
query and applies the rules in source order, first match winning. -/
def classify_question (query : String) : String :=
  let q := toLowerStr query
  if glucoseRule q then "glucose_logging"
  else if moodRule q then "mood_logging"
  else if mealRule q then "meal_planning"
  else if nutritionRule q then "nutrition_analysis"
  else if healthScoreRule q then "health_score"
  else if strHas q "how" || strHas q "what" || strHas q "why" then "informational"
  else if strHas q "help" then "app_help"
  else "general"

/-! ### Health score (`interrupt_agent.py`, `calculate_health_score`) -/

/-- The dict returned by `calculate_health_score`. -/
structure HealthData where
  overall_score : ℚ
  mood_score : ℚ
  glucose_score : ℚ
  nutrition_score : ℚ
  recommendations : List String
  success : Bool
deriving DecidableEq, Repr

/-- Embeds `calculate_health_score` (interrupt_agent.py lines 141-224), success
path, stated over the three 7-day windows the SQL queries return: the
mood labels, glucose readings and meal descriptions. -/
def calculate_health_score (moods : List String) (glucose : List ℤ)
    (meals : List String) : HealthData :=
  let mood_score : ℚ :=
    if moods.length = 0 then 5
    else
      let positive_count := (moods.filter (fun m => m = "happy" ∨ m = "calm")).length
      min 10 (max 0 (10 * (positive_count : ℚ) / moods.length))
  let glucose_score : ℚ :=
    if glucose.length = 0 then 5
    else
      let healthy_count := (glucose.filter (fun r => 80 ≤ r ∧ r ≤ 180)).length
      10 * ((healthy_count : ℚ) / glucose.length)
  let nutrition_score : ℚ :=
    if meals.isEmpty then 5
    else
      let words := splitWords (toLowerStr (String.intercalate " " meals))
      min 10 ((words.dedup.length : ℚ) / 2)
  let overall_score := mood_score * 0.3 + glucose_score * 0.4 + nutrition_score * 0.3
  let recommendations :=
    (if mood_score < 5 then
       ["Improve mood: mindfulness, exercise, social interactions."] else []) ++
    (if glucose_score < 5 then
       ["Improve glucose control: balanced diet, avoid sugary foods."] else []) ++
    (if nutrition_score < 5 then
       ["Improve diet variety: add fruits, vegetables, whole foods."] else [])
  ⟨round1 overall_score, round1 mood_score, round1 glucose_score,
   round1 nutrition_score, recommendations, true⟩

/-- Embeds `calculate_health_score` including its `except` branch: when the store
is unreachable (`dbOk = false`) the fixed failure dict is returned. -/
def calculate_health_score_db (dbOk : Bool) (moods : List String)
    (glucose : List ℤ) (meals : List String) : HealthData :=
  if dbOk then calculate_health_score moods glucose meals
  else ⟨5, 5, 5, 5, ["Unable to calculate detailed health score."], false⟩

/-! ### Intent router (`interrupt_agent.py`, `interrupt_agent`) -/

/-- Embeds the extraction `re.search((word-boundary 2-3 digit regex), query)` then `int(...)` (lines 249-251): the
first word-boundary-delimited run that is all digits and 2 or 3 long. -/
def extractGlucoseValue (query : String) : Option ℕ :=
  ((wordRuns query).find?
      (fun w => w.all Char.isDigit && (w.length = 2 || w.length = 3))).map
    natOfDigits

/-- Result fields the glucose branch reads from `run_cgm_tool`. -/
structure CgmToolRes where
  success : Bool
  message : Option String
  status : Option String
  recommendations : List String
deriving DecidableEq, Repr

/-- Result fields the mood branch reads from `run_mood_tool`. -/
structure MoodToolRes where
  success : Bool
  message : Option String
  logged_mood : Option String
deriving DecidableEq, Repr

/-- One meal of a generated plan (`name`, `description`, with Python
`.get` defaults of N/A). -/
structure MealInfo where
  name : Option String
  description : Option String
deriving DecidableEq, Repr

/-- Result fields the meal-planning branch reads from `run_meal_tool`. -/
structure MealToolRes where
  success : Bool
  message : Option String
  meal_plan : Option (MealInfo × MealInfo × MealInfo)
deriving DecidableEq, Repr

/-- The `nutrition_analysis` sub-dict read by the nutrition branch. -/
structure NutritionInfo where
  calories : ℚ
  protein : ℚ
  carbohydrates : ℚ
  fat : ℚ
deriving DecidableEq, Repr

/-- Result fields the nutrition branch reads from `run_food_tool`. -/
structure FoodToolRes where
  success : Bool
  message : Option String
  nutrition_analysis : Option NutritionInfo
deriving DecidableEq, Repr

/-- Outcomes of every external effect `interrupt_agent` may perform, made
explicit: the four sub-agent delegations (`Except.error e` is the corresponding
`except Exception as e`), the generative-text call (`none` means the call
raised, yielding the canned apology), store availability for
`calculate_health_score`, and the three 7-day windows of the user. -/
structure InterruptOracle where
  cgmCall : Except String CgmToolRes
  moodCall : Except String MoodToolRes
  mealCall : Except String MealToolRes
  foodCall : Except String FoodToolRes
  llmAnswer : Option String
  healthDbOk : Bool
  moodWindow : List String
  glucoseWindow : List ℤ
  mealWindow : List String

/-- The uniform response envelope of `interrupt_agent`: every branch
returns exactly these six fields. -/
structure Envelope where
  success : Bool
  message : Option String
  question_type : Option String
  response_source : Option String
  navigation_suggestion : Option String
  continue_flow : Bool
deriving DecidableEq, Repr

/-- Embeds the `{"answer": ..., "source": ...}` pairs used by the tail of
`interrupt_agent`. -/
structure AnswerData where
  answer : String
  source : String
deriving DecidableEq, Repr

/-- Embeds `answer_query` / `answer_query_cached` (lines 118-138, 227-228): the
text of the generative call (stripped) on success, the canned apology with
source `error` on an exception. -/
def answer_query (llm : Option String) : AnswerData :=
  match llm with
  | some t => ⟨String.mk (trimChars t.data), "llm"⟩
  | none => ⟨"I\x27m sorry, I can\x27t process your request right now.", "error"⟩

/-- Glucose-logging branch of `interrupt_agent` (lines 244-292).  The
user id is consumed only by the delegated tool call, whose outcome is the
`call` argument. -/
def glucoseBranch (_user_id : Option ℤ) (query qt : String)
    (call : Except String CgmToolRes) : Envelope :=
  match call with
  | .error e =>
      ⟨false, some ("Error logging glucose: " ++ e), some qt, some "error", none, true⟩
  | .ok res =>
      match extractGlucoseValue query with
      | none =>
          ⟨false,
           some "I couldn\x27t find a valid glucose value in your message. Please provide a number between 50-500 mg/dL.",
           some qt, some "cgm_agent", none, true⟩
      | some gv =>
          if res.success then
            let recs := res.recommendations
            let rec_text :=
              if recs.isEmpty then "Keep monitoring your glucose regularly."
              else String.intercalate "\n" (recs.map (fun r => "- " ++ r))
            ⟨true,
             some ("Your glucose reading of " ++ toString gv ++
               " mg/dL has been logged successfully!\nStatus: " ++
               (res.status.getD "Normal") ++ "\n\nRecommendations:\n" ++ rec_text),
             some qt, some "cgm_agent", none, true⟩
          else
            ⟨false, some (res.message.getD "Failed to log glucose reading"),
             some qt, some "cgm_agent", none, true⟩

/-- Mood-logging branch of `interrupt_agent` (lines 294-326). -/
def moodBranch (qt : String) (call : Except String MoodToolRes) : Envelope :=
  match call with
  | .error e =>
      ⟨false, some ("Error logging mood: " ++ e), some qt, some "error", none, true⟩
  | .ok res =>
      if res.success then
        ⟨true,
         some ("Your mood \x27" ++ optStr res.logged_mood ++
           "\x27 has been logged successfully!"),
         some qt, some "mood_tracker", none, true⟩
      else
        ⟨false, some (res.message.getD "Failed to log mood"),
         some qt, some "mood_tracker", none, true⟩

/-- Meal-planning branch of `interrupt_agent` (lines 328-371). -/
def mealBranch (qt : String) (call : Except String MealToolRes) : Envelope :=
  match call with
  | .error e =>
      ⟨false, some ("Error generating meal plan: " ++ e), some qt, some "error", none, true⟩
  | .ok res =>
      match res.meal_plan with
      | some plan =>
          if res.success then
            let render := fun (m : MealInfo) =>
              (m.name.getD "N/A") ++ "\n- " ++ (m.description.getD "N/A")
            ⟨true,
             some ("Here\x27s your personalized meal plan:\n\n" ++
               "Breakfast: " ++ render plan.1 ++ "\n\n" ++
               "Lunch: " ++ render plan.2.1 ++ "\n\n" ++
               "Dinner: " ++ render plan.2.2 ++ "\n\nEnjoy your meals!"),
             some qt, some "meal_planner", none, true⟩
          else
            ⟨false, some (res.message.getD "Failed to generate meal plan"),
             some qt, some "meal_planner", none, true⟩
      | none =>
          ⟨false, some (res.message.getD "Failed to generate meal plan"),
           some qt, some "meal_planner", none, true⟩

/-- The meal-description extraction of the nutrition branch (lines
396-402): the segment after the first matched phrase, up to its next
occurrence, stripped; the whole query when no phrase splits it. -/
def extractMealDescription (query : String) : String :=
  match nutrition_food_phrases.find?
      (fun p => strHas (toLowerStr query) p) with
  | none => query
  | some p =>
      match afterRun query.data p.data with
      | some rest => String.mk (trimChars (beforeRun rest p.data))
      | none => query

/-- Nutrition-analysis branch of `interrupt_agent` (lines 373-439). -/
def foodBranch (query qt : String) (call : Except String FoodToolRes) : Envelope :=
  match call with
  | .error e =>
      ⟨false, some ("Error analyzing nutrition: " ++ e), some qt, some "error", none, true⟩
  | .ok res =>
      let meal_description := extractMealDescription query
      match res.nutrition_analysis with
      | some n =>
          if res.success then
            ⟨true,
             some ("Nutrition analysis for \x22" ++ meal_description ++ "\x22:\n\n" ++
               "Calories: " ++ toString n.calories ++ " kcal\n" ++
               "Protein: " ++ toString n.protein ++ " g\n" ++
               "Carbohydrates: " ++ toString n.carbohydrates ++ " g\n" ++
               "Fat: " ++ toString n.fat ++ " g\n\n" ++
               "I\x27ve also logged this meal for you!"),
             some qt, some "food_intake", none, true⟩
          else
            ⟨false, some (res.message.getD "Failed to analyze nutrition"),
             some qt, some "food_intake", none, true⟩
      | none =>
          ⟨false, some (res.message.getD "Failed to analyze nutrition"),
           some qt, some "food_intake", none, true⟩

/-- The health-score report string (lines 450-459). -/
def scoreBreakdown (hd : HealthData) : String :=
  "Health Score Report\n\n" ++
  "Overall Health Score: " ++ toString hd.overall_score ++ "/10\n" ++
  "Mood: " ++ toString hd.mood_score ++ "/10\n" ++
  "Glucose: " ++ toString hd.glucose_score ++ "/10\n" ++
  "Nutrition: " ++ toString hd.nutrition_score ++ "/10\n\n" ++
  "Recommendations:\n" ++
  String.intercalate "\n" (hd.recommendations.map (fun r => "- " ++ r))

/-- The health-score arm of `interrupt_agent` (lines 441-466), producing
the `answer_data` fed to the common tail.  Note the source tests
`user_id is None` here (not Python truthiness). -/
def healthAnswer (user_id : Option ℤ) (o : InterruptOracle) : AnswerData :=
  match user_id with
  | none => ⟨"I need your user ID to calculate your health score.", "system"⟩
  | some _ =>
      let hd := calculate_health_score_db o.healthDbOk o.moodWindow
        o.glucoseWindow o.mealWindow
      if hd.success then ⟨scoreBreakdown hd, "health_score_calculation"⟩
      else ⟨"Unable to calculate health score at the moment.", "system"⟩

/-- Embeds `interrupt_agent` (interrupt_agent.py lines 231-477).  The unused
`current_context` parameter is dropped; all external effects are read from
the oracle. -/
def interrupt_agent (user_id : Option ℤ) (query : String)
    (o : InterruptOracle) : Envelope :=
  if query = "" then
    ⟨false, some "Query is required", none, none, none, true⟩
  else
    let qt := classify_question query
    if qt = "glucose_logging" then glucoseBranch user_id query qt o.cgmCall
    else if qt = "mood_logging" then moodBranch qt o.moodCall
    else if qt = "meal_planning" then mealBranch qt o.mealCall
    else if qt = "nutrition_analysis" then foodBranch query qt o.foodCall
    else
      let answer_data :=
        if qt = "health_score" then healthAnswer user_id o
        else answer_query o.llmAnswer
      ⟨true, some answer_data.answer, some qt, some answer_data.source,
       some "You can continue with your previous task or ask another question.",
       true⟩

/-! ### Evaluation lemmas for the rounding helpers -/

/-- Evaluation: `round(z, 1)` at an integer value is that value. -/
theorem round1_intCast (z : ℤ) : round1 (z : ℚ) = z := by
  have hfloor : ratFloor (10 * (z : ℚ)) = 10 * z := by
    have : (10 : ℚ) * (z : ℚ) = ((10 * z : ℤ) : ℚ) := by push_cast; ring
    rw [ratFloor, this, Int.floor_intCast]
  have hsub : (10 : ℚ) * (z : ℚ) - ((10 * z : ℤ) : ℚ) = 0 := by push_cast; ring
  rw [round1, roundHalfEven]
  simp only [hfloor, hsub]
  norm_num

/-- Evaluation: `round(n, 1)` at a natural value is that value. -/
theorem round1_natCast (n : ℕ) : round1 (n : ℚ) = n := by
  have h := round1_intCast (n : ℤ)
  push_cast at h
  exact h

/-- Evaluation: `round(0, 1) = 0`. -/
theorem round1_zero : round1 0 = 0 := by
  have h := round1_intCast 0
  push_cast at h
  exact h

/-! ## Claims -/

/-- Claim C1: `get_glucose_status` is a total function mapping every integer
reading to exactly one of the six statuses by the fixed breakpoints
(<70 critically_low, 70-79 low, 80-140 normal, 141-180 elevated,
181-250 high, >250 critically_high); the bands cover all integers with no
gaps; reading 70 maps to low, 180 to elevated, and 69 and 71 fall in
different bands. -/
theorem C1_glucose_status_bands (r : ℤ) :
    (r < 70 → get_glucose_status r = "critically_low") ∧
    (70 ≤ r → r ≤ 79 → get_glucose_status r = "low") ∧
    (80 ≤ r → r ≤ 140 → get_glucose_status r = "normal") ∧
    (141 ≤ r → r ≤ 180 → get_glucose_status r = "elevated") ∧
    (181 ≤ r → r ≤ 250 → get_glucose_status r = "high") ∧
    (250 < r → get_glucose_status r = "critically_high") ∧
    get_glucose_status r ∈ glucoseStatusLabels ∧
    (r < 70 ∨ (70 ≤ r ∧ r ≤ 79) ∨ (80 ≤ r ∧ r ≤ 140) ∨ (141 ≤ r ∧ r ≤ 180) ∨
      (181 ≤ r ∧ r ≤ 250) ∨ 250 < r) ∧
    get_glucose_status 70 = "low" ∧
    get_glucose_status 180 = "elevated" ∧
    get_glucose_status 69 ≠ get_glucose_status 71 := by
  refine ⟨?_, ?_, ?_, ?_, ?_, ?_, ?_, by omega, by decide, by decide, by decide⟩
  · intro h; unfold get_glucose_status; split_ifs <;> first | rfl | omega
  · intro h1 h2; unfold get_glucose_status; split_ifs <;> first | rfl | omega
  · intro h1 h2; unfold get_glucose_status; split_ifs <;> first | rfl | omega
  · intro h1 h2; unfold get_glucose_status; split_ifs <;> first | rfl | omega
  · intro h1 h2; unfold get_glucose_status; split_ifs <;> first | rfl | omega
  · intro h; unfold get_glucose_status; split_ifs <;> first | rfl | omega
  · unfold get_glucose_status glucoseStatusLabels; split_ifs <;> simp

/-- Witness for C1 at reading 100. -/
theorem C1_glucose_status_bands_witness :
    (80 ≤ (100 : ℤ) ∧ (100 : ℤ) ≤ 140) ∧ get_glucose_status 100 = "normal" :=
  ⟨by decide, (C1_glucose_status_bands 100).2.2.1 (by decide) (by decide)⟩

/-- Claim C4: every reading the CGM handler logs — user-supplied via the
`log` action or synthesized via the `generate` action — is persisted and
returned with alert flag `reading < 70 or reading > 300`; logging 190
yields status high with alert false, logging 65 yields alert true. -/
theorem C4_alert_flag (store : List CGMRow) (uid r g : ℤ) (huid : uid ≠ 0) :
    (60 ≤ r → r ≤ 350 →
      (cgmProcess (some uid) (some r) "log" g store).fst.alert_flag
          = some (decide (r < 70 ∨ 300 < r)) ∧
      (cgmProcess (some uid) (some r) "log" g store).snd
          = store ++ [⟨uid, r, decide (r < 70 ∨ 300 < r)⟩]) ∧
    ((cgmProcess (some uid) none "generate" g store).fst.alert_flag
        = some (decide (g < 70 ∨ 300 < g)) ∧
      (cgmProcess (some uid) none "generate" g store).snd
        = store ++ [⟨uid, g, decide (g < 70 ∨ 300 < g)⟩]) ∧
    (cgmProcess (some 1) (some 190) "log" 0 []).fst.status = some "high" ∧
    (cgmProcess (some 1) (some 190) "log" 0 []).fst.alert_flag = some false ∧
    (cgmProcess (some 1) (some 65) "log" 0 []).fst.alert_flag = some true := by
  refine ⟨?_, ?_, by decide, by decide, by decide⟩
  · intro h1 h2
    simp [cgmProcess, log_cgm_reading, huid, h1, h2, Bool.decide_or]
  · simp [cgmProcess, log_cgm_reading, huid, Bool.decide_or]

/-- Witness for C4 at store `[]`, user 1, reading 190, generated 100. -/
theorem C4_alert_flag_witness :
    ((1 : ℤ) ≠ 0 ∧ 60 ≤ (190 : ℤ) ∧ (190 : ℤ) ≤ 350) ∧
    ((cgmProcess (some 1) (some 190) "log" 100 []).fst.alert_flag
        = some (decide ((190 : ℤ) < 70 ∨ 300 < (190 : ℤ))) ∧
      (cgmProcess (some 1) (some 190) "log" 100 []).snd
        = [⟨1, 190, decide ((190 : ℤ) < 70 ∨ 300 < (190 : ℤ))⟩]) :=
  ⟨⟨by decide, by decide, by decide⟩,
   (C4_alert_flag [] 1 190 100 (by decide)).1 (by decide) (by decide)⟩

/-- Claim C5: a `log` request whose reading is outside [60,350] fails with
`invalid_range` and leaves the store unchanged; a reading inside [60,350]
passes validation and is persisted. -/
theorem C5_range_validation (store : List CGMRow) (uid r g : ℤ) (huid : uid ≠ 0) :
    ((r < 60 ∨ 350 < r) →
      (cgmProcess (some uid) (some r) "log" g store).fst.success = false ∧
      (cgmProcess (some uid) (some r) "log" g store).fst.message
          = "Glucose reading must be between 60 and 350 mg/dL" ∧
      (cgmProcess (some uid) (some r) "log" g store).fst.error
          = some "invalid_range" ∧
      (cgmProcess (some uid) (some r) "log" g store).snd = store) ∧
    (60 ≤ r → r ≤ 350 →
      (cgmProcess (some uid) (some r) "log" g store).fst.success = true ∧
      (cgmProcess (some uid) (some r) "log" g store).snd
          = store ++ [⟨uid, r, decide (r < 70) || decide (300 < r)⟩]) := by
  constructor
  · intro hout
    have hcond : ¬ (60 ≤ r ∧ r ≤ 350) := by omega
    simp [cgmProcess, huid, hcond]
  · intro h1 h2
    simp [cgmProcess, log_cgm_reading, huid, h1, h2]

/-- Witness for C5 at store `[]`, user 1, reading 500. -/
theorem C5_range_validation_witness :
    ((1 : ℤ) ≠ 0 ∧ ((500 : ℤ) < 60 ∨ 350 < (500 : ℤ))) ∧
    ((cgmProcess (some 1) (some 500) "log" 0 []).fst.success = false ∧
      (cgmProcess (some 1) (some 500) "log" 0 []).fst.message
          = "Glucose reading must be between 60 and 350 mg/dL" ∧
      (cgmProcess (some 1) (some 500) "log" 0 []).fst.error
          = some "invalid_range" ∧
      (cgmProcess (some 1) (some 500) "log" 0 []).snd = []) :=
  ⟨⟨by decide, by decide⟩,
   (C5_range_validation [] 1 500 0 (by decide)).1 (by decide)⟩

/-- Claim C10: on an empty stats window `get_stats` succeeds and returns the
fixed defaults — mood: average 3.0, trend stable, dominant mood neutral,
0 entries; glucose: average 0, time-in-range 0, 0 readings, trend stable,
0 alerts. -/
theorem C10_empty_stats_defaults (uid : ℤ) (huid : uid ≠ 0) :
    calculate_mood_stats [] = ⟨3, "stable", "neutral", 0⟩ ∧
    calculate_cgm_stats [] = ⟨0, 0, 0, "stable", 0⟩ ∧
    (moodProcess (some uid) none "get_stats" []).fst.success = true ∧
    (moodProcess (some uid) none "get_stats" []).fst.error = none ∧
    (moodProcess (some uid) none "get_stats" []).fst.mood_stats
        = some ⟨3, "stable", "neutral", 0⟩ ∧
    (cgmProcess (some uid) none "get_stats" 0 []).fst.success = true ∧
    (cgmProcess (some uid) none "get_stats" 0 []).fst.error = none ∧
    (cgmProcess (some uid) none "get_stats" 0 []).fst.cgm_stats
        = some ⟨0, 0, 0, "stable", 0⟩ := by
  refine ⟨rfl, rfl, ?_, ?_, ?_, ?_, ?_, ?_⟩ <;>
    simp [moodProcess, cgmProcess, get_mood_history, get_cgm_history,
      calculate_mood_stats, calculate_cgm_stats, huid]

/-- Witness for C10 at user 1. -/
theorem C10_empty_stats_defaults_witness :
    (1 : ℤ) ≠ 0 ∧
    ((moodProcess (some 1) none "get_stats" []).fst.success = true ∧
      (moodProcess (some 1) none "get_stats" []).fst.mood_stats
          = some ⟨3, "stable", "neutral", 0⟩) :=
  ⟨by decide,
   ⟨(C10_empty_stats_defaults 1 (by decide)).2.2.1,
    (C10_empty_stats_defaults 1 (by decide)).2.2.2.2.1⟩⟩

/-- Claim C8: logging a mood and immediately computing the stats of the user
includes the just-logged entry: the log action returns success together
with the stats of the post-insert history, whose entry count is the prior
window size plus one; for a user with no prior entries, logging `happy`
yields 1 entry with average score `mood_values["happy"] = 3`. -/
theorem C8_mood_roundtrip (store : List MoodRow) (uid : ℤ) (m : String)
    (huid : uid ≠ 0) (hm : m ≠ "")
    (hvalid : (mood_values.map (fun p => p.1)).contains (toLowerStr m) = true) :
    (moodProcess (some uid) (some m) "log" store).fst.success = true ∧
    (moodProcess (some uid) (some m) "log" store).fst.mood_stats
        = some (calculate_mood_stats (get_mood_history (log_mood store uid m) uid)) ∧
    (calculate_mood_stats (get_mood_history (log_mood store uid m) uid)).total_entries
        = (get_mood_history store uid).length + 1 ∧
    (get_mood_history store uid = [] → toLowerStr m = "happy" →
      (calculate_mood_stats (get_mood_history (log_mood store uid m) uid)).total_entries = 1 ∧
      (calculate_mood_stats (get_mood_history (log_mood store uid m) uid)).average_score
          = (moodScore "happy" : ℚ)) := by
  have hhist : get_mood_history (log_mood store uid m) uid
      = toLowerStr m :: get_mood_history store uid := by
    simp [get_mood_history, log_mood]
  refine ⟨?_, ?_, ?_, ?_⟩
  · simp [moodProcess, huid, hm]
    rw [if_pos hvalid]
  · simp [moodProcess, huid, hm]
    rw [if_pos hvalid]
  · rw [hhist]
    simp [calculate_mood_stats]
  · intro hempty hhappy
    rw [hhist, hempty, hhappy]
    constructor
    · simp [calculate_mood_stats]
    · show (calculate_mood_stats ["happy"]).average_score = ((3 : ℕ) : ℚ)
      have : (calculate_mood_stats ["happy"]).average_score = round1 ((3 : ℕ) : ℚ) := by
        simp [calculate_mood_stats, moodScore, mood_values]
      rw [this, round1_natCast]

/-- Witness for C8: user 1 logs `happy` on an empty store. -/
theorem C8_mood_roundtrip_witness :
    ((1 : ℤ) ≠ 0 ∧ ("happy" : String) ≠ "" ∧
      (mood_values.map (fun p => p.1)).contains (toLowerStr "happy") = true) ∧
    (moodProcess (some 1) (some "happy") "log" []).fst.success = true ∧
    (calculate_mood_stats (get_mood_history (log_mood [] 1 "happy") 1)).total_entries = 1 ∧
    (calculate_mood_stats (get_mood_history (log_mood [] 1 "happy") 1)).average_score
        = (moodScore "happy" : ℚ) :=
  ⟨⟨by decide, by decide, by decide⟩,
   (C8_mood_roundtrip [] 1 "happy" (by decide) (by decide) (by decide)).1,
   ((C8_mood_roundtrip [] 1 "happy" (by decide) (by decide) (by decide)).2.2.2
      (by simp [get_mood_history]) (by decide)).1,
   ((C8_mood_roundtrip [] 1 "happy" (by decide) (by decide) (by decide)).2.2.2
      (by simp [get_mood_history]) (by decide)).2⟩

/-- Claim C6 (amended): for stats windows of at least four entries the
trend compares the mean of the more recent half (the first `len/2` entries
of the DESC-ordered window) with the mean of the older half, with the ±0.5
(mood) and ±15 (glucose) thresholds; windows of fewer than four entries
always report `stable`. -/
theorem C6_trend_half_comparison (moods : List String) (cgm : List CGMHistEntry) :
    (4 ≤ moods.length →
      (calculate_mood_stats moods).trend =
        (if meanQ ((moods.map (fun m => (moodScore m : ℚ))).drop (moods.length / 2)) + 1/2
            < meanQ ((moods.map (fun m => (moodScore m : ℚ))).take (moods.length / 2)) then
          "improving"
        else if meanQ ((moods.map (fun m => (moodScore m : ℚ))).take (moods.length / 2))
            < meanQ ((moods.map (fun m => (moodScore m : ℚ))).drop (moods.length / 2)) - 1/2 then
          "declining"
        else "stable")) ∧
    (moods.length < 4 → (calculate_mood_stats moods).trend = "stable") ∧
    (4 ≤ cgm.length →
      (calculate_cgm_stats cgm).trend =
        (if meanQ ((cgm.map (fun e => (e.glucose_reading : ℚ))).drop (cgm.length / 2)) + 15
            < meanQ ((cgm.map (fun e => (e.glucose_reading : ℚ))).take (cgm.length / 2)) then
          "rising"
        else if meanQ ((cgm.map (fun e => (e.glucose_reading : ℚ))).take (cgm.length / 2))
            < meanQ ((cgm.map (fun e => (e.glucose_reading : ℚ))).drop (cgm.length / 2)) - 15 then
          "falling"
        else "stable")) ∧
    (cgm.length < 4 → (calculate_cgm_stats cgm).trend = "stable") := by
  refine ⟨?_, ?_, ?_, ?_⟩
  · intro h4
    have hne : moods.isEmpty = false := by
      cases moods with
      | nil => simp at h4
      | cons a t => rfl
    simp only [calculate_mood_stats, hne, Bool.false_eq_true, if_false,
      List.length_map, h4, if_true, if_pos h4]
  · intro h4
    cases moods with
    | nil => rfl
    | cons a t =>
        have hne : (a :: t).isEmpty = false := rfl
        simp only [calculate_mood_stats, hne, Bool.false_eq_true, if_false]
        rw [if_neg]
        simp only [List.length_map]
        omega
  · intro h4
    have hne : cgm.isEmpty = false := by
      cases cgm with
      | nil => simp at h4
      | cons a t => rfl
    simp only [calculate_cgm_stats, hne, Bool.false_eq_true, if_false,
      List.length_map, h4, if_true, if_pos h4]
  · intro h4
    cases cgm with
    | nil => rfl
    | cons a t =>
        have hne : (a :: t).isEmpty = false := rfl
        simp only [calculate_cgm_stats, hne, Bool.false_eq_true, if_false]
        rw [if_neg]
        simp only [List.length_map]
        omega

/-- Counterexample for C6 as stated: the window `["happy", "calm"]`
(scores 3, 1) is non-empty and its recent-half mean exceeds the older-half
mean by more than 0.5, yet the mood trend is `stable`, not `improving` —
the source computes a trend only for windows of length ≥ 4. -/
theorem C6_trend_counterexample :
    (calculate_mood_stats ["happy", "calm"]).trend = "stable" ∧
    meanQ ((["happy", "calm"].map (fun m => (moodScore m : ℚ))).drop
        (["happy", "calm"].length / 2)) + 1/2
      < meanQ ((["happy", "calm"].map (fun m => (moodScore m : ℚ))).take
        (["happy", "calm"].length / 2)) ∧
    ("stable" : String) ≠ "improving" := by
  refine ⟨rfl, ?_, by decide⟩
  have h1 : moodScore "calm" = 1 := by decide
  have h3 : moodScore "happy" = 3 := by decide
  simp [meanQ, h1, h3]
  norm_num

/-- Witness for C6: a four-entry window with scores 3, 3, 1, 1 has trend
`improving`, and a one-entry window has trend `stable`. -/
theorem C6_trend_half_comparison_witness :
    (4 ≤ (["happy", "happy", "sad", "sad"] : List String).length ∧
      (calculate_mood_stats ["happy", "happy", "sad", "sad"]).trend = "improving") ∧
    ((["happy"] : List String).length < 4 ∧
      (calculate_mood_stats ["happy"]).trend = "stable") :=
  ⟨⟨by decide,
    ((C6_trend_half_comparison ["happy", "happy", "sad", "sad"] []).1 (by decide)).trans
      (by
        have h3 : moodScore "happy" = 3 := by decide
        have h1 : moodScore "sad" = 1 := by decide
        norm_num [meanQ, h3, h1])⟩,
   ⟨by decide,
    (C6_trend_half_comparison ["happy"] []).2.1 (by decide)⟩⟩

/-- The mood sub-score of the spec: the formula: positivity ratio × 10 (positive
moods are `happy` and `calm`). -/
def moodPositivityScore (moods : List String) : ℚ :=
  10 * ((moods.filter (fun m => m = "happy" ∨ m = "calm")).length : ℚ) / moods.length

/-- The glucose sub-score formula actually implemented: 10 × fraction of
readings inside [80,180] (the claim says [70,180]). -/
def glucoseInRangeScore (glucose : List ℤ) : ℚ :=
  10 * (((glucose.filter (fun r => 80 ≤ r ∧ r ≤ 180)).length : ℚ) / glucose.length)

/-- The nutrition sub-score formula: min(10, unique-word-count / 2) over
the concatenated lowercased meal descriptions. -/
def nutritionVarietyScore (meals : List String) : ℚ :=
  min 10 (((splitWords (toLowerStr (String.intercalate " " meals))).dedup.length : ℚ) / 2)

/-- Claim C2 (amended): with non-empty windows, the health-score handler
returns `round(·, 1)` of the sub-scores — mood positivity ratio × 10,
glucose score 10 × fraction of readings in [80,180] (not [70,180] as
claimed), nutrition min(10, unique-words/2) — and overall score
`round(0.3*mood + 0.4*glucose + 0.3*nutrition, 1)`, with exactly one
recommendation per sub-score below the fixed threshold 5. -/
theorem C2_health_score_weighted (moods : List String) (glucose : List ℤ)
    (meals : List String) (hm : moods ≠ []) (hg : glucose ≠ []) (hf : meals ≠ []) :
    (calculate_health_score moods glucose meals).mood_score
        = round1 (moodPositivityScore moods) ∧
    (calculate_health_score moods glucose meals).glucose_score
        = round1 (glucoseInRangeScore glucose) ∧
    (calculate_health_score moods glucose meals).nutrition_score
        = round1 (nutritionVarietyScore meals) ∧
    (calculate_health_score moods glucose meals).overall_score
        = round1 (moodPositivityScore moods * 0.3 + glucoseInRangeScore glucose * 0.4
            + nutritionVarietyScore meals * 0.3) ∧
    (calculate_health_score moods glucose meals).recommendations.length
        = ((if moodPositivityScore moods < 5 then 1 else 0) +
           (if glucoseInRangeScore glucose < 5 then 1 else 0) +
           (if nutritionVarietyScore meals < 5 then 1 else 0)) ∧
    (calculate_health_score moods glucose meals).success = true := by
  have hm0 : ¬ (moods.length = 0) := by simpa [List.length_eq_zero] using hm
  have hg0 : ¬ (glucose.length = 0) := by simpa [List.length_eq_zero] using hg
  have hfE : meals.isEmpty = false := by
    cases meals with
    | nil => cases hf rfl
    | cons a t => rfl
  have hlen : (0 : ℚ) < (moods.length : ℚ) := by
    have : 0 < moods.length := Nat.pos_of_ne_zero hm0
    exact_mod_cast this
  have hle : ((moods.filter (fun m => m = "happy" ∨ m = "calm")).length : ℚ)
      ≤ (moods.length : ℚ) := by
    exact_mod_cast List.length_filter_le _ _
  have h0 : (0 : ℚ) ≤ 10 * ((moods.filter (fun m => m = "happy" ∨ m = "calm")).length : ℚ)
      / (moods.length : ℚ) := by positivity
  have h10 : 10 * ((moods.filter (fun m => m = "happy" ∨ m = "calm")).length : ℚ)
      / (moods.length : ℚ) ≤ 10 := by
    rw [div_le_iff₀ hlen]
    nlinarith
  have key : calculate_health_score moods glucose meals =
      ⟨round1 (moodPositivityScore moods * 0.3 + glucoseInRangeScore glucose * 0.4
          + nutritionVarietyScore meals * 0.3),
       round1 (moodPositivityScore moods), round1 (glucoseInRangeScore glucose),
       round1 (nutritionVarietyScore meals),
       (if moodPositivityScore moods < 5 then
          ["Improve mood: mindfulness, exercise, social interactions."] else []) ++
       (if glucoseInRangeScore glucose < 5 then
          ["Improve glucose control: balanced diet, avoid sugary foods."] else []) ++
       (if nutritionVarietyScore meals < 5 then
          ["Improve diet variety: add fruits, vegetables, whole foods."] else []),
       true⟩ := by
    unfold calculate_health_score moodPositivityScore glucoseInRangeScore
      nutritionVarietyScore
    simp only [hm0, hg0, hfE, if_false, Bool.false_eq_true]
    rw [max_eq_right h0, min_eq_right h10]
  rw [key]
  refine ⟨rfl, rfl, rfl, rfl, ?_, rfl⟩
  simp only [List.length_append]
  split_ifs <;> simp

/-- Counterexample for C2 as stated: a 7-day window holding the single
glucose reading 75 — inside the claimed time-in-range band [70,180], whose
claimed score is 10 × (1/1) = 10 — receives glucose sub-score 0, because
`calculate_health_score` counts readings in [80,180]. -/
theorem C2_health_score_counterexample :
    (calculate_health_score [] [75] []).glucose_score = 0 ∧
    (70 ≤ (75 : ℤ) ∧ (75 : ℤ) ≤ 180) ∧
    10 * ((([75] : List ℤ).filter (fun r => 70 ≤ r ∧ r ≤ 180)).length : ℚ)
        / (([75] : List ℤ).length : ℚ) = 10 ∧
    (0 : ℚ) ≠ 10 := by
  refine ⟨?_, by decide, ?_, by norm_num⟩
  · have h : (calculate_health_score [] [75] []).glucose_score = round1 0 := by
      norm_num [calculate_health_score]
    rw [h, round1_zero]
  · have h : (([75] : List ℤ).filter (fun r => 70 ≤ r ∧ r ≤ 180)) = [75] := by decide
    rw [h]
    norm_num

/-- Witness for C2 with windows `["happy"]`, `[100]`, `["rice beans"]`. -/
theorem C2_health_score_weighted_witness :
    ((["happy"] : List String) ≠ [] ∧ ([100] : List ℤ) ≠ [] ∧
      (["rice beans"] : List String) ≠ []) ∧
    (calculate_health_score ["happy"] [100] ["rice beans"]).mood_score
        = round1 (moodPositivityScore ["happy"]) ∧
    (calculate_health_score ["happy"] [100] ["rice beans"]).glucose_score
        = round1 (glucoseInRangeScore [100]) ∧
    (calculate_health_score ["happy"] [100] ["rice beans"]).overall_score
        = round1 (moodPositivityScore ["happy"] * 0.3 + glucoseInRangeScore [100] * 0.4
            + nutritionVarietyScore ["rice beans"] * 0.3) :=
  ⟨⟨by decide, by decide, by decide⟩,
   (C2_health_score_weighted ["happy"] [100] ["rice beans"]
      (by decide) (by decide) (by decide)).1,
   (C2_health_score_weighted ["happy"] [100] ["rice beans"]
      (by decide) (by decide) (by decide)).2.1,
   (C2_health_score_weighted ["happy"] [100] ["rice beans"]
      (by decide) (by decide) (by decide)).2.2.2.1⟩

/-- Claim C3 (amended): `classify_question` applies its rules with fixed
priority and first match winning, but in the source order — glucose-logging
first, then mood-logging, meal-planning, nutrition-analysis, and only then
the health-score keyword check (followed by the informational/app-help/
general fallbacks); a health-score query that matches no earlier rule is
classified `health_score`. -/
theorem C3_classifier_priority (query : String) :
    (glucoseRule (toLowerStr query) = true →
      classify_question query = "glucose_logging") ∧
    (glucoseRule (toLowerStr query) = false →
      moodRule (toLowerStr query) = true →
      classify_question query = "mood_logging") ∧
    (glucoseRule (toLowerStr query) = false →
      moodRule (toLowerStr query) = false →
      mealRule (toLowerStr query) = true →
      classify_question query = "meal_planning") ∧
    (glucoseRule (toLowerStr query) = false →
      moodRule (toLowerStr query) = false →
      mealRule (toLowerStr query) = false →
      nutritionRule (toLowerStr query) = true →
      classify_question query = "nutrition_analysis") ∧
    (glucoseRule (toLowerStr query) = false →
      moodRule (toLowerStr query) = false →
      mealRule (toLowerStr query) = false →
      nutritionRule (toLowerStr query) = false →
      healthScoreRule (toLowerStr query) = true →
      classify_question query = "health_score") ∧
    classify_question "what is my health score" = "health_score" := by
  refine ⟨?_, ?_, ?_, ?_, ?_, by decide⟩
  · intro h1
    simp [classify_question, h1]
  · intro h1 h2
    simp [classify_question, h1, h2]
  · intro h1 h2 h3
    simp [classify_question, h1, h2, h3]
  · intro h1 h2 h3 h4
    simp [classify_question, h1, h2, h3, h4]
  · intro h1 h2 h3 h4 h5
    simp [classify_question, h1, h2, h3, h4, h5]

/-- Counterexample for C3 as stated: the query
`"log glucose 120 for my health score"` contains the health-score keyword
`health score`, yet the classifier returns `glucose_logging` — the
glucose-logging rule is checked before the health-score rule, not after. -/
theorem C3_classifier_counterexample :
    strHas (toLowerStr "log glucose 120 for my health score") "health score" = true ∧
    classify_question "log glucose 120 for my health score" = "glucose_logging" ∧
    ("glucose_logging" : String) ≠ "health_score" := by
  refine ⟨by decide, by decide, by decide⟩

/-- Witness for C3: the glucose-rule branch at the counterexample query and
the health-score branch at `"what is my health score"`. -/
theorem C3_classifier_priority_witness :
    (glucoseRule (toLowerStr "log glucose 120 for my health score") = true ∧
      classify_question "log glucose 120 for my health score" = "glucose_logging") ∧
    (glucoseRule (toLowerStr "what is my health score") = false ∧
      healthScoreRule (toLowerStr "what is my health score") = true ∧
      classify_question "what is my health score" = "health_score") :=
  ⟨⟨by decide,
    (C3_classifier_priority "log glucose 120 for my health score").1 (by decide)⟩,
   ⟨by decide, by decide,
    (C3_classifier_priority "what is my health score").2.2.2.2.1
      (by decide) (by decide) (by decide) (by decide) (by decide)⟩⟩

/-- Claim C7: for every input to the interrupt handler — any `user_id`
including `none`, any query including the empty one, and every error or
delegation outcome of the oracle — the result is the uniform six-field
`Envelope` (`success`, `message`, `question_type`, `response_source`,
`navigation_suggestion`, `continue_flow`, guaranteed by the return type),
and `continue_flow` is `true` in every case: the router never signals
termination of the session. -/
theorem C7_uniform_envelope (user_id : Option ℤ) (query : String)
    (o : InterruptOracle) :
    (interrupt_agent user_id query o).continue_flow = true := by
  have hg : ∀ (u : Option ℤ) (q t : String) (c : Except String CgmToolRes),
      (glucoseBranch u q t c).continue_flow = true := by
    intro u q t c
    unfold glucoseBranch
    rcases c with e | res
    · rfl
    · rcases extractGlucoseValue q with _ | gv
      · rfl
      · dsimp only
        split <;> rfl
  have hm : ∀ (t : String) (c : Except String MoodToolRes),
      (moodBranch t c).continue_flow = true := by
    intro t c
    unfold moodBranch
    rcases c with e | res
    · rfl
    · dsimp only
      split <;> rfl
  have hml : ∀ (t : String) (c : Except String MealToolRes),
      (mealBranch t c).continue_flow = true := by
    intro t c
    unfold mealBranch
    rcases c with e | res
    · rfl
    · rcases res.meal_plan with _ | plan
      · simp only []
        split <;> try rfl
        split <;> rfl
      · simp only []
        split <;> try rfl
        split <;> rfl
  have hf : ∀ (q t : String) (c : Except String FoodToolRes),
      (foodBranch q t c).continue_flow = true := by
    intro q t c
    unfold foodBranch
    rcases c with e | res
    · rfl
    · rcases res.nutrition_analysis with _ | n
      · simp only []
        split <;> try rfl
        split <;> rfl
      · simp only []
        split <;> try rfl
        split <;> rfl
  unfold interrupt_agent
  split
  · rfl
  · dsimp only
    split
    · exact hg user_id query _ o.cgmCall
    · split
      · exact hm _ o.moodCall
      · split
        · exact hml _ o.mealCall
        · split
          · exact hf query _ o.foodCall
          · rfl

/-- Claim C9: the query `"what is my health score"` with no user id is
classified `health_score` and answered with `success = true` and a message
asking for a user id; in general every non-empty query that reaches the
health-score or generic-answer tail (that is, matches none of the four
delegation intents) returns `success = true`, whatever the oracle reports
for the underlying computation or external call. -/
theorem C9_health_score_no_user (user_id : Option ℤ) (query : String)
    (o : InterruptOracle) (hq : query ≠ "")
    (h1 : classify_question query ≠ "glucose_logging")
    (h2 : classify_question query ≠ "mood_logging")
    (h3 : classify_question query ≠ "meal_planning")
    (h4 : classify_question query ≠ "nutrition_analysis") :
    (interrupt_agent user_id query o).success = true ∧
    (interrupt_agent none "what is my health score" o).success = true ∧
    (interrupt_agent none "what is my health score" o).message
        = some "I need your user ID to calculate your health score." ∧
    (interrupt_agent none "what is my health score" o).question_type
        = some "health_score" ∧
    (interrupt_agent none "what is my health score" o).response_source
        = some "system" := by
  have hc : classify_question "what is my health score" = "health_score" := by
    decide
  refine ⟨?_, ?_, ?_, ?_, ?_⟩ <;>
    simp [interrupt_agent, hq, h1, h2, h3, h4, hc, healthAnswer]

/-- Witness for C9 at a concrete oracle. -/
theorem C9_health_score_no_user_witness :
    (("what is my health score" : String) ≠ "" ∧
      classify_question "what is my health score" ≠ "glucose_logging" ∧
      classify_question "what is my health score" ≠ "mood_logging" ∧
      classify_question "what is my health score" ≠ "meal_planning" ∧
      classify_question "what is my health score" ≠ "nutrition_analysis") ∧
    (interrupt_agent none "what is my health score"
        ⟨.ok ⟨true, none, none, []⟩, .ok ⟨true, none, none⟩, .ok ⟨true, none, none⟩,
         .ok ⟨true, none, none⟩, none, true, [], [], []⟩).success = true ∧
    (interrupt_agent none "what is my health score"
        ⟨.ok ⟨true, none, none, []⟩, .ok ⟨true, none, none⟩, .ok ⟨true, none, none⟩,
         .ok ⟨true, none, none⟩, none, true, [], [], []⟩).message
        = some "I need your user ID to calculate your health score." :=
  ⟨⟨by decide, by decide, by decide, by decide, by decide⟩,
   (C9_health_score_no_user none "what is my health score"
      ⟨.ok ⟨true, none, none, []⟩, .ok ⟨true, none, none⟩, .ok ⟨true, none, none⟩,
       .ok ⟨true, none, none⟩, none, true, [], [], []⟩
      (by decide) (by decide) (by decide) (by decide) (by decide)).2.1,
   (C9_health_score_no_user none "what is my health score"
      ⟨.ok ⟨true, none, none, []⟩, .ok ⟨true, none, none⟩, .ok ⟨true, none, none⟩,
       .ok ⟨true, none, none⟩, none, true, [], [], []⟩
      (by decide) (by decide) (by decide) (by decide) (by decide)).2.2.1⟩
